import Mathlib

/-!
Verification of the `claude-relay-service` launcher scripts (`start.py` and
`scripts/start_utils.py`) against their natural-language specification.

The Python code is shallowly embedded: file contents are `String`s, the
filesystem is an explicit record threaded through the operations, and every
interaction with the outside world (subprocess runs, TCP connects, the
process table, the interactive prompt) is an oracle stored in an `Env`
record.  Python exceptions are modelled with `Except String`: a function
that can raise to its caller returns `Except String α`, and a `try/except`
in the source becomes a `match` on that value.

String primitives (`str.strip`, `str.lstrip`, `str.split`, `int(...)`)
are modelled on `List Char`.  `pyInt` models CPython `int(s)` on ordinary
decimal strings (optional surrounding whitespace, optional sign, decimal
digits); exotic inputs (underscore grouping, non-ASCII digits) are outside
the model.
-/

namespace ClaudeRelay

/-- Python `str.strip()`: drop whitespace from both ends. -/
def pyStripChars (l : List Char) : List Char :=
  ((l.dropWhile Char.isWhitespace).reverse.dropWhile Char.isWhitespace).reverse

/-- Python `str.lstrip(c)` for a single character `c`: drop leading copies of `c`. -/
def pyLstripChar (c : Char) (l : List Char) : List Char :=
  l.dropWhile (fun x => x = c)

/-- Python `str.split(sep)` for a one-character separator: split on every
occurrence, keeping empty fields (`"a..b".split "."` gives three fields). -/
def splitOnChar (c : Char) : List Char → List (List Char)
  | [] => [[]]
  | x :: xs =>
    if x = c then [] :: splitOnChar c xs
    else (x :: (splitOnChar c xs).headD []) :: (splitOnChar c xs).tail

/-- Does the first list occur as an initial segment of the second?
(Python `str.startswith`.) -/
def startsWithChars : List Char → List Char → Bool
  | [], _ => true
  | _ :: _, [] => false
  | x :: xs, y :: ys => decide (x = y) && startsWithChars xs ys

/-- Numeric value of a list of decimal digits (most significant first). -/
def digitsToNat (l : List Char) : Nat :=
  l.foldl (fun acc c => 10 * acc + (c.toNat - '0'.toNat)) 0

/-- The digits part of `int(s)`: a nonempty run of decimal digits, else
`ValueError` (modelled as `none`). -/
def pyIntDigits (l : List Char) : Option Int :=
  if l ≠ [] ∧ l.all Char.isDigit then some (digitsToNat l) else none

/-- The sign part of `int(s)`, applied after whitespace stripping: an
optional single leading `+`/`-` followed by the digits. -/
def pyIntSigned : List Char → Option Int
  | [] => none
  | x :: rest =>
    if x = '+' then pyIntDigits rest
    else if x = '-' then (pyIntDigits rest).map (fun n => -n)
    else pyIntDigits (x :: rest)

/-- CPython `int(s)` on a decimal string: strip whitespace, optional single
sign, then a nonempty run of decimal digits; anything else raises
`ValueError`, modelled as `none`. -/
def pyIntChars (l : List Char) : Option Int :=
  pyIntSigned (pyStripChars l)

/-- `int(s)` on a `String`. -/
def pyInt (s : String) : Option Int :=
  pyIntChars s.data

/-- Python `str.strip()` on a `String`. -/
def pyStrip (s : String) : String :=
  ⟨pyStripChars s.data⟩

/-- JSON values, as produced by `json.load`. -/
inductive Json where
  | null
  | bool (b : Bool)
  | num (n : Int)
  | str (s : String)
  | arr (xs : List Json)
  | obj (fields : List (String × Json))

/-- A Python `dict` with string keys, in insertion order. -/
abbrev PyDict := List (String × Json)

/-- First-match lookup in a `PyDict` (Python `d[k]` / `k in d`). -/
def lookupAssoc (k : String) : PyDict → Option Json
  | [] => none
  | (k₁, v) :: rest => if k₁ = k then some v else lookupAssoc k rest

/-- `d[k] = v` on a Python dict: replace the value in place if the key is
present, append the new pair otherwise. -/
def dictInsert (d : PyDict) (k : String) (v : Json) : PyDict :=
  if (lookupAssoc k d).isSome then
    d.map (fun p => if p.1 = k then (k, v) else p)
  else d ++ [(k, v)]

/-- Python `d.update(u)`: fold every key of `u` into `d`, replacing existing
keys and appending unknown ones. -/
def dictUpdate (d u : PyDict) : PyDict :=
  u.foldl (fun acc kv => dictInsert acc kv.1 kv.2) d

/-- State of the on-disk `config/start_config.json` file: absent, present but
unreadable (read or JSON-parse error, folded into a warning by the code), or a
parsed JSON object. -/
inductive StartCfgFile where
  | absent
  | unreadable
  | obj (o : PyDict)

/-- The files of the project tree that the launcher reads or writes, each as
`Option String` (`none` = the file does not exist). -/
structure FS where
  envFile : Option String
  envExample : Option String
  configFile : Option String
  configExample : Option String
  pidFile : Option String

namespace ConfigManager

/-- `ConfigManager.ensure_env_file`: if `.env` exists do nothing and succeed;
otherwise copy `.env.example` to `.env` if present, else warn and fail. -/
def ensure_env_file (fs : FS) : Bool × FS :=
  match fs.envFile with
  | some _ => (true, fs)
  | none =>
    match fs.envExample with
    | some tmpl => (true, { fs with envFile := some tmpl })
    | none => (false, fs)

/-- `ConfigManager.ensure_config_file`: if `config/config.js` exists do nothing
and succeed; otherwise copy `config/config.example.js` if present, else warn
and fail. -/
def ensure_config_file (fs : FS) : Bool × FS :=
  match fs.configFile with
  | some _ => (true, fs)
  | none =>
    match fs.configExample with
    | some tmpl => (true, { fs with configFile := some tmpl })
    | none => (false, fs)

/-- The hard-coded `default_config` dict of `ConfigManager.load_start_config`. -/
def default_config : PyDict :=
  [ ("default_mode", .str "dev"),
    ("ports", .obj [("dev", .num 3000), ("prod", .num 3000), ("redis", .num 6379)]),
    ("docker", .obj [("image_name", .str "claude-relay-service"),
                     ("container_name", .str "claude-relay")]),
    ("redis", .obj [("host", .str "localhost"), ("port", .num 6379)]) ]

/-- `ConfigManager.load_start_config`: start from `default_config`; if the
start-config file exists and parses as a JSON object, run
`default_config.update(user_config)`; on any read/parse failure keep the
defaults (the exception is caught and only warned about). -/
def load_start_config (file : StartCfgFile) : PyDict :=
  match file with
  | .absent => default_config
  | .unreadable => default_config
  | .obj o => dictUpdate default_config o

/-- `ConfigManager.get_env_value` inner loop: scan the lines of `.env` and
return the text after the first `=` of the first stripped line that starts
with `KEY=`. -/
def get_env_value_lines (key : List Char) : List (List Char) → Option (List Char)
  | [] => none
  | l :: rest =>
    let s := pyStripChars l
    if startsWithChars (key ++ ['=']) s then some (s.drop (key.length + 1))
    else get_env_value_lines key rest

/-- `ConfigManager.get_env_value`: if `.env` is absent return the default;
otherwise scan its lines for `KEY=` and return the remainder of the first
matching line, falling back to the default. -/
def get_env_value (fs : FS) (key : String) (dflt : String) : String :=
  match fs.envFile with
  | none => dflt
  | some content =>
    match get_env_value_lines key.data (splitOnChar '\n' content.data) with
    | some v => ⟨v⟩
    | none => dflt

end ConfigManager

namespace ProcessManager

/-- `ProcessManager.get_running_pid`, with `is_process_running` abstracted as
the oracle `alive` (it shells out to `tasklist` or probes `os.kill(pid, 0)`,
folding every failure into `False`).  Reads the PID file; a stale pid deletes
the file; an unparsable content raises `ValueError`, which the code catches
and turns into `None` without touching the file. -/
def get_running_pid (alive : Int → Bool) (fs : FS) : Option Int × FS :=
  match fs.pidFile with
  | none => (none, fs)
  | some content =>
    match pyInt (pyStrip content) with
    | none => (none, fs)
    | some pid =>
      if alive pid then (some pid, fs)
      else (none, { fs with pidFile := none })

end ProcessManager

/-- Outcome of a completed `subprocess.run` call: its return code and captured
standard output. -/
structure RunResult where
  returncode : Int
  stdout : String

/-- The outside world as the launcher observes it during one invocation.
`Except String α` fields model calls that can raise: `.error msg` is the
Python exception, `.ok` the normal outcome.  `connectEx` is the result of
`socket.connect_ex((host, port))`, shared by the port probe and the Redis
probe; `kill0` is the `os.kill(pid, 0)` liveness probe. -/
structure Env where
  nodeVersionRun : Except String RunResult
  npmVersionRun : Except String RunResult
  dockerVersionRun : Except String RunResult
  dockerComposeVersionRun : Except String RunResult
  nodeModulesExists : Bool
  packageLockExists : Bool
  frontendDistEntries : Option Nat
  frontendNodeModulesExists : Bool
  npmInstallRun : Except String RunResult
  frontendInstallRun : Except String RunResult
  frontendBuildRun : Except String RunResult
  npmDaemonStartRun : Except String RunResult
  composeBuildRun : Except String RunResult
  composeUpSpawn : Except String Unit
  npmServiceRun : String → Except String RunResult
  connectEx : String → Int → Except String Int
  promptAnswer : String
  spawnResult : Except String Unit
  childExitCode : Int
  kill0 : Int → Except String Unit

namespace SystemChecker

/-- `SystemChecker.check_node_version`: run `node --version`; on return code 0
strip the output, drop leading `v`s, take the text before the first `.`, and
require `int(...) >= 18`; every exception (spawn failure, `ValueError` from
`int`) is caught and folded into a `(False, message)` result. -/
def check_node_version (env : Env) : Bool × String :=
  match env.nodeVersionRun with
  | .error e => (false, "检查Node.js失败: " ++ e)
  | .ok r =>
    if r.returncode = 0 then
      let version := pyStrip r.stdout
      let version_num := (splitOnChar '.' (pyLstripChar 'v' version.data)).headD []
      match pyIntChars version_num with
      | some n =>
        if n ≥ 18 then (true, version)
        else (false, "需要Node.js >= 18.0.0, 当前版本: " ++ version)
      | none => (false, "检查Node.js失败: invalid literal for int")
    else (false, "Node.js未安装或无法执行")

/-- `SystemChecker.check_npm_installed`. -/
def check_npm_installed (env : Env) : Bool × String :=
  match env.npmVersionRun with
  | .error e => (false, "检查npm失败: " ++ e)
  | .ok r =>
    if r.returncode = 0 then (true, pyStrip r.stdout) else (false, "npm未安装")

/-- `SystemChecker.check_docker_installed`. -/
def check_docker_installed (env : Env) : Bool × String :=
  match env.dockerVersionRun with
  | .error e => (false, "检查Docker失败: " ++ e)
  | .ok r =>
    if r.returncode = 0 then (true, pyStrip r.stdout) else (false, "Docker未安装")

/-- `SystemChecker.check_docker_compose_installed`. -/
def check_docker_compose_installed (env : Env) : Bool × String :=
  match env.dockerComposeVersionRun with
  | .error e => (false, "检查Docker Compose失败: " ++ e)
  | .ok r =>
    if r.returncode = 0 then (true, pyStrip r.stdout) else (false, "Docker Compose未安装")

/-- `SystemChecker.check_dependencies_installed`: `node_modules` and
`package-lock.json` both exist. -/
def check_dependencies_installed (env : Env) : Bool :=
  env.nodeModulesExists && env.packageLockExists

/-- `SystemChecker.check_frontend_built`: the front-end `dist` directory
exists and holds at least one entry. -/
def check_frontend_built (env : Env) : Bool :=
  match env.frontendDistEntries with
  | none => false
  | some n => decide (0 < n)

/-- `SystemChecker.check_port_available`: `connect_ex` to `localhost:port`;
`0` means occupied, any other result or any exception means available. -/
def check_port_available (env : Env) (port : Int) : Bool :=
  match env.connectEx "localhost" port with
  | .error _ => true
  | .ok r => decide (r ≠ 0)

/-- `SystemChecker.check_redis_connection`: `connect_ex` to `host:port`;
reachable iff the result is `0`; any exception folds to `false`. -/
def check_redis_connection (env : Env) (host : String) (port : Int) : Bool :=
  match env.connectEx host port with
  | .error _ => false
  | .ok r => decide (r = 0)

end SystemChecker

namespace ServiceStarter

/-- `ServiceStarter.prepare_environment`: ensure `.env` and `config.js`,
aborting on the first failure; the `logs`/`data`/`temp` directory creation
(`mkdir(exist_ok=True)`) does not affect any modelled file. -/
def prepare_environment (fs : FS) : Bool × FS :=
  match ConfigManager.ensure_env_file fs with
  | (false, fs₁) => (false, fs₁)
  | (true, fs₁) =>
    match ConfigManager.ensure_config_file fs₁ with
    | (false, fs₂) => (false, fs₂)
    | (true, fs₂) => (true, fs₂)

/-- `ServiceStarter.install_dependencies`: no-op if the install marker is
present, otherwise run `npm install`; exception or non-zero exit folds to
`false`. -/
def install_dependencies (env : Env) : Bool :=
  if SystemChecker.check_dependencies_installed env then true
  else
    match env.npmInstallRun with
    | .error _ => false
    | .ok r => decide (r.returncode = 0)

/-- `ServiceStarter.build_frontend`: no-op if already built; otherwise install
front-end dependencies when their `node_modules` is missing, then run the
build; any exception or non-zero exit folds to `false`. -/
def build_frontend (env : Env) : Bool :=
  if SystemChecker.check_frontend_built env then true
  else
    let installOk : Bool :=
      if env.frontendNodeModulesExists then true
      else
        match env.frontendInstallRun with
        | .error _ => false
        | .ok r => decide (r.returncode = 0)
    if installOk then
      match env.frontendBuildRun with
      | .error _ => false
      | .ok r => decide (r.returncode = 0)
    else false

/-- `ServiceStarter.check_redis_availability`: read `REDIS_HOST`/`REDIS_PORT`
from `.env` (defaults `localhost`/`6379`), convert the port with `int(...)`
— which raises `ValueError` to the caller when the value is not an integer
literal — then probe the TCP connection. -/
def check_redis_availability (env : Env) (fs : FS) : Except String Bool :=
  let redis_host := ConfigManager.get_env_value fs "REDIS_HOST" "localhost"
  let redis_port_str := ConfigManager.get_env_value fs "REDIS_PORT" "6379"
  match pyInt redis_port_str with
  | none => .error ("invalid literal for int with base 10: " ++ redis_port_str)
  | some p => .ok (SystemChecker.check_redis_connection env redis_host p)

end ServiceStarter

namespace Starter

/-- `ProcessManager.is_process_running` on the POSIX branch: probe
`os.kill(pid, 0)`, alive iff it does not raise (the Windows `tasklist` branch
folds into the same boolean shape). -/
def is_process_running (env : Env) (pid : Int) : Bool :=
  match env.kill0 pid with
  | .ok _ => true
  | .error _ => false

/-- `ClaudeRelayStarter._run_system_check`: Node.js check then npm check,
failing on the first failure. -/
def run_system_check (env : Env) : Bool :=
  (SystemChecker.check_node_version env).1 && (SystemChecker.check_npm_installed env).1

/-- `ClaudeRelayStarter._check_port_conflicts`: fails iff the port probe
reports the port occupied (the `lsof`/`netstat` reporting only prints, and
its exceptions are swallowed). -/
def check_port_conflicts (env : Env) (port : Int) : Bool :=
  SystemChecker.check_port_available env port

/-- `ClaudeRelayStarter.start_dev_mode`: system check → prepare environment →
install dependencies → build front-end → Redis check (soft gate: on failure
the operator is prompted and any answer whose lowercase form is not `y`
aborts) → port check → spawn `npm run dev` and wait.  The Redis check's
`ValueError` propagates uncaught; a spawn failure is caught and folds to
`false`; the child's exit code from `wait()` is discarded and the method
returns `True` whenever the wait returns. -/
def start_dev_mode (env : Env) (fs : FS) (port : Int) : Except String Bool × FS :=
  if ¬run_system_check env then (.ok false, fs)
  else
    match ServiceStarter.prepare_environment fs with
    | (false, fs₁) => (.ok false, fs₁)
    | (true, fs₁) =>
      if ¬ServiceStarter.install_dependencies env then (.ok false, fs₁)
      else if ¬ServiceStarter.build_frontend env then (.ok false, fs₁)
      else
        match ServiceStarter.check_redis_availability env fs₁ with
        | .error e => (.error e, fs₁)
        | .ok redisOk =>
          if ¬redisOk ∧ env.promptAnswer.toLower ≠ "y" then (.ok false, fs₁)
          else if ¬check_port_conflicts env port then (.ok false, fs₁)
          else
            match env.spawnResult with
            | .error _ => (.ok false, fs₁)
            | .ok _ => (.ok true, fs₁)

/-- `ClaudeRelayStarter.start_prod_mode`: same preflight as dev mode except
that Redis unreachability is a hard gate (no prompt).  With the daemon flag
the server is started through `npm run service:start:daemon` (success = exit
code 0); otherwise `npm start` runs in the foreground and, exactly as in dev
mode, the child's exit code is discarded and the method returns `True` once
`wait()` returns. -/
def start_prod_mode (env : Env) (fs : FS) (port : Int) (daemon : Bool) :
    Except String Bool × FS :=
  if ¬run_system_check env then (.ok false, fs)
  else
    match ServiceStarter.prepare_environment fs with
    | (false, fs₁) => (.ok false, fs₁)
    | (true, fs₁) =>
      if ¬ServiceStarter.install_dependencies env then (.ok false, fs₁)
      else if ¬ServiceStarter.build_frontend env then (.ok false, fs₁)
      else
        match ServiceStarter.check_redis_availability env fs₁ with
        | .error e => (.error e, fs₁)
        | .ok redisOk =>
          if ¬redisOk then (.ok false, fs₁)
          else if ¬check_port_conflicts env port then (.ok false, fs₁)
          else if daemon then
            match env.npmDaemonStartRun with
            | .error _ => (.ok false, fs₁)
            | .ok r => (.ok (decide (r.returncode = 0)), fs₁)
          else
            match env.spawnResult with
            | .error _ => (.ok false, fs₁)
            | .ok _ => (.ok true, fs₁)

/-- `ClaudeRelayStarter.start_docker_mode`: Docker and Docker Compose version
checks are hard gates; an optional `docker-compose build` must exit 0; then
`docker-compose up` is spawned (daemon flag appends `-d`) and waited on, and
the method returns `True` once the wait returns; any exception folds to
`false`. -/
def start_docker_mode (env : Env) (fs : FS) (rebuild _daemon : Bool) :
    Except String Bool × FS :=
  if ¬(SystemChecker.check_docker_installed env).1 then (.ok false, fs)
  else if ¬(SystemChecker.check_docker_compose_installed env).1 then (.ok false, fs)
  else
    let buildOk : Bool :=
      if rebuild then
        match env.composeBuildRun with
        | .error _ => false
        | .ok r => decide (r.returncode = 0)
      else true
    if ¬buildOk then (.ok false, fs)
    else
      match env.composeUpSpawn with
      | .error _ => (.ok false, fs)
      | .ok _ => (.ok true, fs)

/-- `ClaudeRelayStarter.manage_service`: run `npm run service:<action>`,
success iff exit code 0; a spawn exception folds to `false`. -/
def manage_service (env : Env) (action : String) : Bool :=
  match env.npmServiceRun action with
  | .error _ => false
  | .ok r => decide (r.returncode = 0)

/-- `ClaudeRelayStarter.show_status`: print system info, the Node.js check,
the Redis availability check (whose `ValueError` on a malformed `REDIS_PORT`
propagates uncaught), the PID-file-derived running state (which may delete a
stale PID file), and the port-3000 probe; then return `True`. -/
def show_status (env : Env) (fs : FS) : Except String Bool × FS :=
  let _node := SystemChecker.check_node_version env
  match ServiceStarter.check_redis_availability env fs with
  | .error e => (.error e, fs)
  | .ok _redisOk =>
    match ProcessManager.get_running_pid (is_process_running env) fs with
    | (_pid, fs₁) =>
      let _portOk := SystemChecker.check_port_available env 3000
      (.ok true, fs₁)

end Starter

/-- The parsed command line: the `mode` subcommand with its options, as
produced by `argparse` (`None` when no subcommand was given). -/
inductive Mode where
  | dev (port : Int)
  | prod (port : Int) (daemon : Bool)
  | docker (rebuild daemon : Bool)
  | service (action : String)
  | status

/-- The mode dispatch of `main`'s `try` block. -/
def run_mode (env : Env) (fs : FS) : Mode → Except String Bool × FS
  | .dev port => Starter.start_dev_mode env fs port
  | .prod port daemon => Starter.start_prod_mode env fs port daemon
  | .docker rebuild daemon => Starter.start_docker_mode env fs rebuild daemon
  | .service action => (.ok (Starter.manage_service env action), fs)
  | .status => Starter.show_status env fs

/-- `main`: with no mode, print the help text and return (process exit 0);
otherwise dispatch on the mode, `sys.exit(1)` when the mode reports failure,
and map an uncaught exception to exit 1 via the top-level `except Exception`.
Returns the process exit status paired with whether the help text was
printed. -/
def main_run (env : Env) (fs : FS) (m : Option Mode) : Nat × Bool :=
  match m with
  | none => (0, true)
  | some mode =>
    match (run_mode env fs mode).1 with
    | .ok true => (0, false)
    | .ok false => (1, false)
    | .error _ => (1, false)

/-- The launcher's process exit status for one invocation. -/
def main_exit_code (env : Env) (fs : FS) (m : Option Mode) : Nat :=
  (main_run env fs m).1

/-- A healthy world: every tool installed (Node v20.1.0), dependencies
installed, front-end built, port 3000 free (`connect_ex` fails with `1`),
every other TCP connect succeeds (`0`, so Redis at 6379 is reachable), and
the spawned server exits with code 0. -/
def okEnv : Env where
  nodeVersionRun := .ok ⟨0, "v20.1.0"⟩
  npmVersionRun := .ok ⟨0, "10.5.0"⟩
  dockerVersionRun := .ok ⟨0, "Docker version 24.0.0"⟩
  dockerComposeVersionRun := .ok ⟨0, "2.20.0"⟩
  nodeModulesExists := true
  packageLockExists := true
  frontendDistEntries := some 3
  frontendNodeModulesExists := true
  npmInstallRun := .ok ⟨0, ""⟩
  frontendInstallRun := .ok ⟨0, ""⟩
  frontendBuildRun := .ok ⟨0, ""⟩
  npmDaemonStartRun := .ok ⟨0, ""⟩
  composeBuildRun := .ok ⟨0, ""⟩
  composeUpSpawn := .ok ()
  npmServiceRun := fun _ => .ok ⟨0, ""⟩
  connectEx := fun _ p => if p = 3000 then .ok 1 else .ok 0
  promptAnswer := ""
  spawnResult := .ok ()
  childExitCode := 0
  kill0 := fun _ => .ok ()

/-- A project tree where `.env` and `config.js` already exist, both templates
exist, and there is no PID file. -/
def okFS : FS where
  envFile := some "REDIS_HOST=localhost\nREDIS_PORT=6379\n"
  envExample := some "REDIS_HOST=localhost\n"
  configFile := some "module.exports = ..."
  configExample := some "module.exports = ..."
  pidFile := none

/-- A broken world: every subprocess call and TCP connect raises. -/
def errEnv : Env :=
  { okEnv with
    nodeVersionRun := .error "boom"
    npmVersionRun := .error "boom"
    dockerVersionRun := .error "boom"
    dockerComposeVersionRun := .error "boom"
    connectEx := fun _ _ => .error "boom" }

/-- A bare project tree: no config files, no templates, no PID file. -/
def emptyFS : FS := ⟨none, none, none, none, none⟩

/-- The healthy tree plus a PID file recording pid 123. -/
def pidFS : FS := { okFS with pidFile := some "123" }

/-! ### Helper lemmas about the string primitives -/

theorem dropWhile_eq_self_of_all {p : Char → Bool} :
    ∀ {l : List Char}, (∀ c ∈ l, p c = false) → l.dropWhile p = l := by
  intro l h
  cases l with
  | nil => rfl
  | cons x xs => simp [List.dropWhile_cons, h x (by simp)]

theorem pyStripChars_eq_self {l : List Char} (h : ∀ c ∈ l, c.isWhitespace = false) :
    pyStripChars l = l := by
  unfold pyStripChars
  rw [dropWhile_eq_self_of_all h,
    dropWhile_eq_self_of_all (fun c hc => h c (List.mem_reverse.mp hc)),
    List.reverse_reverse]

theorem takeWhile_append_stop {p : Char → Bool} {x : Char} {l₂ : List Char}
    (hx : p x = false) :
    ∀ {l₁ : List Char}, (∀ c ∈ l₁, p c = true) →
      (l₁ ++ x :: l₂).takeWhile p = l₁ := by
  intro l₁
  induction l₁ with
  | nil => intro _; simp [List.takeWhile_cons, hx]
  | cons y ys ih =>
    intro h
    simp only [List.cons_append, List.takeWhile_cons, h y (by simp), if_pos]
    rw [ih (fun c hc => h c (by simp [hc]))]

theorem splitOnChar_headD (c : Char) :
    ∀ l : List Char, (splitOnChar c l).headD [] = l.takeWhile (fun x => !decide (x = c)) := by
  intro l
  induction l with
  | nil => rfl
  | cons x xs ih =>
    by_cases hx : x = c
    · simp [splitOnChar, hx, List.takeWhile_cons]
    · simp only [splitOnChar, if_neg hx, List.headD_cons, List.takeWhile_cons]
      rw [ih]
      simp [hx]

theorem ne_of_isDigit {c x : Char} (h : c.isDigit = true) (hx : x.isDigit = false) :
    c ≠ x := by
  intro e
  rw [e, hx] at h
  cases h

theorem isWhitespace_eq_false_of_isDigit {c : Char} (h : c.isDigit = true) :
    c.isWhitespace = false := by
  have h1 : c ≠ ' ' := ne_of_isDigit h (by decide)
  have h2 : c ≠ '\t' := ne_of_isDigit h (by decide)
  have h3 : c ≠ '\r' := ne_of_isDigit h (by decide)
  have h4 : c ≠ '\n' := ne_of_isDigit h (by decide)
  simp [Char.isWhitespace, h1, h2, h3, h4]

theorem pyIntDigits_of_digits {l : List Char} (h1 : l ≠ []) (h2 : l.all Char.isDigit = true) :
    pyIntDigits l = some ((digitsToNat l : Int)) := by
  unfold pyIntDigits
  rw [if_pos ⟨h1, h2⟩]

theorem pyIntChars_of_digits {l : List Char} (h1 : l ≠ []) (h2 : l.all Char.isDigit = true) :
    pyIntChars l = some ((digitsToNat l : Int)) := by
  obtain ⟨x, xs, rfl⟩ := List.exists_cons_of_ne_nil h1
  have hall : ∀ c ∈ x :: xs, Char.isDigit c = true := by
    simpa [List.all_eq_true] using h2
  have hws : ∀ c ∈ x :: xs, c.isWhitespace = false := fun c hc =>
    isWhitespace_eq_false_of_isDigit (hall c hc)
  have hx := hall x (by simp)
  unfold pyIntChars
  rw [pyStripChars_eq_self hws]
  simp only [pyIntSigned, if_neg (ne_of_isDigit hx (by decide) : x ≠ '+'),
    if_neg (ne_of_isDigit hx (by decide) : x ≠ '-')]
  exact pyIntDigits_of_digits h1 h2

/-! ### Helper lemmas about the dict model -/

theorem lookupAssoc_append (k : String) (d e : PyDict) :
    lookupAssoc k (d ++ e) =
      match lookupAssoc k d with
      | some v => some v
      | none => lookupAssoc k e := by
  induction d with
  | nil => rfl
  | cons p d ih =>
    obtain ⟨k₁, v₁⟩ := p
    by_cases h : k₁ = k
    · simp [lookupAssoc, h]
    · simp [lookupAssoc, h, ih]

theorem lookupAssoc_map_replace {k k' : String} (v : Json) (d : PyDict) (hne : k' ≠ k) :
    lookupAssoc k' (d.map (fun p => if p.1 = k then (k, v) else p)) = lookupAssoc k' d := by
  induction d with
  | nil => rfl
  | cons p d ih =>
    obtain ⟨k₁, v₁⟩ := p
    simp only [List.map_cons]
    by_cases h : k₁ = k
    · subst h
      rw [if_pos (rfl : (k₁, v₁).1 = k₁)]
      simp only [lookupAssoc]
      have hk' : ¬(k₁ = k') := fun e => hne e.symm
      rw [if_neg hk', if_neg hk']
      exact ih
    · rw [if_neg (h : ¬(k₁, v₁).1 = k)]
      simp only [lookupAssoc]
      by_cases h2 : k₁ = k'
      · rw [if_pos h2, if_pos h2]
      · rw [if_neg h2, if_neg h2]
        exact ih

theorem lookupAssoc_map_hit {k : String} (v : Json) (d : PyDict)
    (h : (lookupAssoc k d).isSome = true) :
    lookupAssoc k (d.map (fun p => if p.1 = k then (k, v) else p)) = some v := by
  induction d with
  | nil => simp [lookupAssoc] at h
  | cons p d ih =>
    obtain ⟨k₁, v₁⟩ := p
    simp only [List.map_cons]
    by_cases hk : k₁ = k
    · rw [if_pos (hk : (k₁, v₁).1 = k)]
      simp [lookupAssoc]
    · rw [if_neg (hk : ¬(k₁, v₁).1 = k)]
      simp only [lookupAssoc] at h ⊢
      rw [if_neg hk]
      rw [if_neg hk] at h
      exact ih h

theorem lookupAssoc_dictInsert_self (d : PyDict) (k : String) (v : Json) :
    lookupAssoc k (dictInsert d k v) = some v := by
  unfold dictInsert
  by_cases h : (lookupAssoc k d).isSome = true
  · rw [if_pos h]
    exact lookupAssoc_map_hit v d h
  · rw [if_neg h, lookupAssoc_append]
    cases hd : lookupAssoc k d with
    | some v' => rw [hd] at h; simp at h
    | none => simp [lookupAssoc]

theorem lookupAssoc_dictInsert_other (d : PyDict) {k k' : String} (v : Json) (hne : k' ≠ k) :
    lookupAssoc k' (dictInsert d k v) = lookupAssoc k' d := by
  unfold dictInsert
  by_cases h : (lookupAssoc k d).isSome = true
  · rw [if_pos h]
    exact lookupAssoc_map_replace v d hne
  · rw [if_neg h, lookupAssoc_append]
    cases hd : lookupAssoc k' d with
    | some v' => rfl
    | none =>
      have hk : ¬(k = k') := fun e => hne e.symm
      simp [lookupAssoc, hk]

theorem lookupAssoc_eq_none_of_not_mem {k : String} {l : PyDict}
    (h : k ∉ l.map Prod.fst) : lookupAssoc k l = none := by
  induction l with
  | nil => rfl
  | cons p l ih =>
    obtain ⟨k₁, v₁⟩ := p
    simp only [List.map_cons, List.mem_cons] at h
    push_neg at h
    have hk : ¬(k₁ = k) := fun e => h.1 e.symm
    simp only [lookupAssoc, hk, if_false]
    exact ih h.2

/-- The lookup behaviour of Python `dict.update`: an updated key wins, any
other key falls back to the original dict.  Requires the updating dict to
have distinct keys, which `json.load` guarantees. -/
theorem lookupAssoc_dictUpdate :
    ∀ (u : PyDict), (u.map Prod.fst).Nodup → ∀ (d : PyDict) (k : String),
    lookupAssoc k (dictUpdate d u) =
      match lookupAssoc k u with
      | some v => some v
      | none => lookupAssoc k d := by
  intro u
  induction u with
  | nil => intro _ d k; rfl
  | cons p u ih =>
    obtain ⟨k₀, v₀⟩ := p
    intro hnodup d k
    simp only [List.map_cons, List.nodup_cons] at hnodup
    have step : dictUpdate d ((k₀, v₀) :: u) = dictUpdate (dictInsert d k₀ v₀) u := rfl
    rw [step, ih hnodup.2 (dictInsert d k₀ v₀) k]
    by_cases hk : k = k₀
    · subst hk
      rw [lookupAssoc_eq_none_of_not_mem hnodup.1]
      simp [lookupAssoc, lookupAssoc_dictInsert_self]
    · have hhead : lookupAssoc k ((k₀, v₀) :: u) = lookupAssoc k u := by
        have hk' : ¬(k₀ = k) := fun e => hk e.symm
        simp [lookupAssoc, hk']
      rw [hhead]
      cases lookupAssoc k u with
      | some v => rfl
      | none => exact lookupAssoc_dictInsert_other d v₀ hk

/-! ### Claim theorems -/

/-- C4: for every version string of the form `vMAJOR.MINOR.PATCH` printed by
`node --version` with exit code 0 (`MAJOR`, `MINOR`, `PATCH` nonempty decimal
digit strings), `check_node_version` succeeds iff the numeric value of
`MAJOR` is at least 18, independently of `MINOR` and `PATCH`; and on failure
its message names the required version `18.0.0` and the actual version
string. -/
theorem check_node_version_major_ge_18
    (env : Env) (maj minr patch : List Char)
    (hrun : env.nodeVersionRun =
      .ok ⟨0, ⟨'v' :: (maj ++ ('.' :: (minr ++ ('.' :: patch))))⟩⟩)
    (hmaj : maj ≠ []) (hmajd : maj.all Char.isDigit = true)
    (_hminr : minr ≠ []) (hminrd : minr.all Char.isDigit = true)
    (_hpatch : patch ≠ []) (hpatchd : patch.all Char.isDigit = true) :
    ((SystemChecker.check_node_version env).1 = true ↔ 18 ≤ digitsToNat maj)
    ∧ (digitsToNat maj < 18 →
        (SystemChecker.check_node_version env).2 =
          "需要Node.js >= 18.0.0, 当前版本: " ++
            ⟨'v' :: (maj ++ ('.' :: (minr ++ ('.' :: patch))))⟩) := by
  have hmajd' : ∀ c ∈ maj, c.isDigit = true := List.all_eq_true.mp hmajd
  have hminrd' : ∀ c ∈ minr, c.isDigit = true := List.all_eq_true.mp hminrd
  have hpatchd' : ∀ c ∈ patch, c.isDigit = true := List.all_eq_true.mp hpatchd
  have hws : ∀ c ∈ 'v' :: (maj ++ ('.' :: (minr ++ ('.' :: patch)))),
      c.isWhitespace = false := by
    intro c hc
    rcases List.mem_cons.mp hc with rfl | hc
    · decide
    rcases List.mem_append.mp hc with hc | hc
    · exact isWhitespace_eq_false_of_isDigit (hmajd' c hc)
    rcases List.mem_cons.mp hc with rfl | hc
    · decide
    rcases List.mem_append.mp hc with hc | hc
    · exact isWhitespace_eq_false_of_isDigit (hminrd' c hc)
    rcases List.mem_cons.mp hc with rfl | hc
    · decide
    · exact isWhitespace_eq_false_of_isDigit (hpatchd' c hc)
  obtain ⟨m₀, maj', rfl⟩ := List.exists_cons_of_ne_nil hmaj
  have hm₀ : m₀.isDigit = true := hmajd' m₀ (by simp)
  have hstrip : pyStripChars ('v' :: ((m₀ :: maj') ++ ('.' :: (minr ++ ('.' :: patch))))) =
      'v' :: ((m₀ :: maj') ++ ('.' :: (minr ++ ('.' :: patch)))) :=
    pyStripChars_eq_self hws
  have hlstrip : pyLstripChar 'v' ('v' :: ((m₀ :: maj') ++ ('.' :: (minr ++ ('.' :: patch))))) =
      (m₀ :: maj') ++ ('.' :: (minr ++ ('.' :: patch))) := by
    unfold pyLstripChar
    rw [List.dropWhile_cons]
    simp only [decide_True, if_true]
    rw [List.cons_append, List.dropWhile_cons]
    simp [ne_of_isDigit hm₀ (by decide : ('v' : Char).isDigit = false)]
  have hhead : (splitOnChar '.' ((m₀ :: maj') ++ ('.' :: (minr ++ ('.' :: patch))))).headD [] =
      m₀ :: maj' := by
    rw [splitOnChar_headD]
    refine takeWhile_append_stop ?_ ?_
    · decide
    · intro c hc
      simp [ne_of_isDigit (hmajd' c hc) (by decide : ('.' : Char).isDigit = false)]
  have hpy : pyStrip ⟨'v' :: (m₀ :: maj' ++ '.' :: (minr ++ '.' :: patch))⟩ =
      ⟨'v' :: (m₀ :: maj' ++ '.' :: (minr ++ '.' :: patch))⟩ := by
    unfold pyStrip
    rw [hstrip]
  have hdata : (⟨'v' :: (m₀ :: maj' ++ '.' :: (minr ++ '.' :: patch))⟩ : String).data =
      'v' :: (m₀ :: maj' ++ '.' :: (minr ++ '.' :: patch)) := rfl
  simp only [SystemChecker.check_node_version, hrun, if_pos trivial, hpy, hdata,
    hlstrip, hhead, pyIntChars_of_digits hmaj hmajd]
  by_cases h18 : 18 ≤ digitsToNat (m₀ :: maj')
  · have h18' : ((digitsToNat (m₀ :: maj') : Int)) ≥ 18 := by exact_mod_cast h18
    rw [if_pos h18']
    exact ⟨by simpa using h18, fun hlt => absurd h18 (by omega)⟩
  · have h18' : ¬ ((digitsToNat (m₀ :: maj') : Int)) ≥ 18 := by
      intro h
      exact h18 (by exact_mod_cast h)
    rw [if_neg h18']
    exact ⟨by simpa using h18, fun _ => rfl⟩

/-- C4 witness: on the concrete version string `v20.1.0` (major 20, exit
code 0), the check succeeds. -/
theorem check_node_version_major_ge_18_witness :
    ((SystemChecker.check_node_version okEnv).1 = true ↔ 18 ≤ digitsToNat ['2', '0'])
    ∧ (digitsToNat ['2', '0'] < 18 →
        (SystemChecker.check_node_version okEnv).2 =
          "需要Node.js >= 18.0.0, 当前版本: " ++
            ⟨'v' :: (['2', '0'] ++ ('.' :: (['1'] ++ ('.' :: ['0']))))⟩) :=
  check_node_version_major_ge_18 okEnv ['2', '0'] ['1'] ['0'] rfl (by decide) (by decide)
    (by decide) (by decide) (by decide) (by decide)

/-- C10: invoking the launcher with no mode argument prints the help text and
exits with status 0, for every environment and filesystem state. -/
theorem main_no_mode_prints_help_exits_zero (env : Env) (fs : FS) :
    main_run env fs none = (0, true) := rfl

/-- C1 counterexample: in a healthy world where dev-mode preflight succeeds
and the spawned server exits with the non-zero code 2, the launcher exits
with status 0, not 1 — `start_dev_mode` discards the result of `wait()` and
returns `True`, so the child's exit status is not propagated. -/
theorem dev_nonzero_child_exit_not_propagated :
    ({ okEnv with childExitCode := 2 } : Env).childExitCode ≠ 0
    ∧ main_exit_code { okEnv with childExitCode := 2 } okFS (some (Mode.dev 3000)) = 0 :=
  ⟨by decide, by decide⟩

/-- C1 amended: for every foreground dev-mode or prod-mode invocation whose
preflight succeeds and whose server subprocess is spawned, the launcher exits
with status 0 regardless of the child's exit code — the child's exit status
is discarded, never surfaced as the launcher's exit code. -/
theorem dev_prod_foreground_exit_zero_regardless_of_child
    (env : Env) (fs : FS) (port : Int)
    (h1 : Starter.run_system_check env = true)
    (h2 : (ServiceStarter.prepare_environment fs).1 = true)
    (h3 : ServiceStarter.install_dependencies env = true)
    (h4 : ServiceStarter.build_frontend env = true)
    (h5 : ServiceStarter.check_redis_availability env
      (ServiceStarter.prepare_environment fs).2 = .ok true)
    (h6 : Starter.check_port_conflicts env port = true)
    (h7 : env.spawnResult = .ok ()) :
    main_exit_code env fs (some (.dev port)) = 0
    ∧ main_exit_code env fs (some (.prod port false)) = 0 := by
  rcases hpe : ServiceStarter.prepare_environment fs with ⟨b, fs₁⟩
  rw [hpe] at h2 h5
  simp only at h2 h5
  subst h2
  constructor
  · simp only [main_exit_code, main_run, run_mode, Starter.start_dev_mode, h1, hpe, h3, h4,
      h5, h6, h7]
    simp
  · simp only [main_exit_code, main_run, run_mode, Starter.start_prod_mode, h1, hpe, h3, h4,
      h5, h6, h7]
    simp

/-- C1 amended witness: in the healthy world (child exit code 0), both
foreground modes exit 0. -/
theorem dev_prod_foreground_exit_zero_witness :
    main_exit_code okEnv okFS (some (.dev 3000)) = 0
    ∧ main_exit_code okEnv okFS (some (.prod 3000 false)) = 0 :=
  dev_prod_foreground_exit_zero_regardless_of_child okEnv okFS 3000 (by decide) (by decide)
    (by decide) (by decide) rfl (by decide) rfl

/-- C2 counterexample: with `.env` containing `REDIS_PORT=abc`, the status
mode exits with status 1, not 0 — `int('abc')` raises `ValueError` inside
`check_redis_availability`, which propagates to `main`'s top-level handler. -/
theorem status_mode_exit_one_on_malformed_redis_port :
    main_exit_code okEnv { okFS with envFile := some "REDIS_PORT=abc\n" } (some .status) = 1 := by
  decide

/-- C2 amended: for every environment state whose `.env` `REDIS_PORT` value
(or its absence, via the default `6379`) parses as an integer, the status
mode terminates with process exit status 0. -/
theorem status_mode_exit_zero_of_parsable_redis_port
    (env : Env) (fs : FS) (p : Int)
    (h : pyInt (ConfigManager.get_env_value fs "REDIS_PORT" "6379") = some p) :
    main_exit_code env fs (some .status) = 0 := by
  simp only [main_exit_code, main_run, run_mode, Starter.show_status,
    ServiceStarter.check_redis_availability, h]

/-- C2 amended witness: a concrete state (no Node.js needed to be absent —
the hypothesis only constrains `REDIS_PORT`) where status mode exits 0. -/
theorem status_mode_exit_zero_witness :
    main_exit_code okEnv okFS (some .status) = 0 :=
  status_mode_exit_zero_of_parsable_redis_port okEnv okFS 6379 rfl

/-- C3 counterexample: the `ServiceStarter`-level Redis wrapper does raise to
its caller — with `.env` containing `REDIS_PORT=abc`, `int('abc')` raises
`ValueError` out of `check_redis_availability`. -/
theorem check_redis_availability_error_on_malformed_port :
    ServiceStarter.check_redis_availability okEnv
        { okFS with envFile := some "REDIS_PORT=abc\n" } =
      .error "invalid literal for int with base 10: abc" := rfl

/-- C3 amended: every probe/check function — the tool-version checks for
node, npm, docker and docker-compose, the port check, and the Redis TCP
check — returns a boolean-or-status result and never raises to its caller:
each exception of the underlying environment interaction is caught and
folded into the check's status result (shown here by evaluating each check
on the exception outcome of its oracle — the version checks report failure
with the exception's message, the port probe reports the port available, the
Redis probe reports unreachable).  The `ServiceStarter`-level wrapper that
reads host/port from `.env` never raises provided the `REDIS_PORT` value
parses as an integer, and raises `ValueError` to its caller exactly when it
does not. -/
theorem probe_checks_never_raise :
    (∀ (env : Env) (e : String), env.nodeVersionRun = .error e →
        SystemChecker.check_node_version env = (false, "检查Node.js失败: " ++ e))
    ∧ (∀ (env : Env) (e : String), env.npmVersionRun = .error e →
        SystemChecker.check_npm_installed env = (false, "检查npm失败: " ++ e))
    ∧ (∀ (env : Env) (e : String), env.dockerVersionRun = .error e →
        SystemChecker.check_docker_installed env = (false, "检查Docker失败: " ++ e))
    ∧ (∀ (env : Env) (e : String), env.dockerComposeVersionRun = .error e →
        SystemChecker.check_docker_compose_installed env =
          (false, "检查Docker Compose失败: " ++ e))
    ∧ (∀ (env : Env) (port : Int) (e : String), env.connectEx "localhost" port = .error e →
        SystemChecker.check_port_available env port = true)
    ∧ (∀ (env : Env) (host : String) (port : Int) (e : String),
        env.connectEx host port = .error e →
        SystemChecker.check_redis_connection env host port = false)
    ∧ (∀ (env : Env) (fs : FS) (p : Int),
        pyInt (ConfigManager.get_env_value fs "REDIS_PORT" "6379") = some p →
        ∃ b, ServiceStarter.check_redis_availability env fs = Except.ok b)
    ∧ (∀ (env : Env) (fs : FS),
        pyInt (ConfigManager.get_env_value fs "REDIS_PORT" "6379") = none →
        ∃ e, ServiceStarter.check_redis_availability env fs = Except.error e) := by
  refine ⟨?_, ?_, ?_, ?_, ?_, ?_, ?_, ?_⟩
  · intro env e h
    simp only [SystemChecker.check_node_version, h]
  · intro env e h
    simp only [SystemChecker.check_npm_installed, h]
  · intro env e h
    simp only [SystemChecker.check_docker_installed, h]
  · intro env e h
    simp only [SystemChecker.check_docker_compose_installed, h]
  · intro env port e h
    simp only [SystemChecker.check_port_available, h]
  · intro env host port e h
    simp only [SystemChecker.check_redis_connection, h]
  · intro env fs p h
    refine ⟨SystemChecker.check_redis_connection env
      (ConfigManager.get_env_value fs "REDIS_HOST" "localhost") p, ?_⟩
    simp only [ServiceStarter.check_redis_availability, h]
  · intro env fs h
    refine ⟨"invalid literal for int with base 10: "
      ++ ConfigManager.get_env_value fs "REDIS_PORT" "6379", ?_⟩
    simp only [ServiceStarter.check_redis_availability, h]

/-- C3 amended witness: each conjunct instantiated at a concrete world — the
everything-raises world for the probe checks, the healthy world for the
wrapper's ok direction, and a tree whose `.env` holds `REDIS_PORT=xy` for
the wrapper's raising direction. -/
theorem probe_checks_never_raise_witness :
    SystemChecker.check_node_version errEnv = (false, "检查Node.js失败: boom")
    ∧ SystemChecker.check_npm_installed errEnv = (false, "检查npm失败: boom")
    ∧ SystemChecker.check_docker_installed errEnv = (false, "检查Docker失败: boom")
    ∧ SystemChecker.check_docker_compose_installed errEnv =
        (false, "检查Docker Compose失败: boom")
    ∧ SystemChecker.check_port_available errEnv 3000 = true
    ∧ SystemChecker.check_redis_connection errEnv "localhost" 6379 = false
    ∧ (∃ b, ServiceStarter.check_redis_availability okEnv okFS = Except.ok b)
    ∧ (∃ e, ServiceStarter.check_redis_availability okEnv
        { okFS with envFile := some "REDIS_PORT=xy\n" } = Except.error e) :=
  ⟨probe_checks_never_raise.1 errEnv "boom" rfl,
    probe_checks_never_raise.2.1 errEnv "boom" rfl,
    probe_checks_never_raise.2.2.1 errEnv "boom" rfl,
    probe_checks_never_raise.2.2.2.1 errEnv "boom" rfl,
    probe_checks_never_raise.2.2.2.2.1 errEnv 3000 "boom" rfl,
    probe_checks_never_raise.2.2.2.2.2.1 errEnv "localhost" 6379 "boom" rfl,
    probe_checks_never_raise.2.2.2.2.2.2.1 okEnv okFS 6379 rfl,
    probe_checks_never_raise.2.2.2.2.2.2.2 okEnv
      { okFS with envFile := some "REDIS_PORT=xy\n" } rfl⟩

/-- C5 counterexample: a key that is not in the default map is NOT ignored —
`dict.update` inserts it, so after loading a start-config file containing
only the unknown key `foo`, the result maps `foo` to its file value instead
of lacking it. -/
theorem load_start_config_keeps_unknown_key :
    lookupAssoc "foo" (ConfigManager.load_start_config (.obj [("foo", Json.num 1)])) =
      some (Json.num 1) := rfl

/-- C5 amended: for every on-disk start-config JSON object (with distinct
keys, as JSON parsing guarantees), loading returns the default map overlaid
by the file object: keys present in the file override the defaults, and
unknown keys are inserted into the result as well — not ignored. -/
theorem load_start_config_overlay (o : PyDict) (k : String)
    (h : (o.map Prod.fst).Nodup) :
    lookupAssoc k (ConfigManager.load_start_config (.obj o)) =
      match lookupAssoc k o with
      | some v => some v
      | none => lookupAssoc k ConfigManager.default_config := by
  simp only [ConfigManager.load_start_config]
  exact lookupAssoc_dictUpdate o h ConfigManager.default_config k

/-- C5 amended witness: on a concrete file object, a file key overrides its
default and an absent key falls back to the default map. -/
theorem load_start_config_overlay_witness :
    lookupAssoc "default_mode"
        (ConfigManager.load_start_config
          (.obj [("foo", Json.num 1), ("default_mode", Json.str "prod")])) =
      some (Json.str "prod")
    ∧ lookupAssoc "ports"
        (ConfigManager.load_start_config
          (.obj [("foo", Json.num 1), ("default_mode", Json.str "prod")])) =
      some (Json.obj
        [("dev", Json.num 3000), ("prod", Json.num 3000), ("redis", Json.num 6379)]) :=
  ⟨load_start_config_overlay [("foo", Json.num 1), ("default_mode", Json.str "prod")]
      "default_mode" (by decide),
   load_start_config_overlay [("foo", Json.num 1), ("default_mode", Json.str "prod")]
      "ports" (by decide)⟩

/-- C6: the ensure-config-file operations are idempotent — when the target
exists, both the first and a second call return success with the filesystem
unchanged (no write); when both target and template are missing, both calls
return failure without creating the target.  Stated for
`ensure_config_file` and `ensure_env_file` alike. -/
theorem ensure_config_file_idempotent (fs : FS) :
    (∀ c, fs.configFile = some c →
      ConfigManager.ensure_config_file fs = (true, fs)
      ∧ ConfigManager.ensure_config_file (ConfigManager.ensure_config_file fs).2 = (true, fs))
    ∧ (fs.configFile = none → fs.configExample = none →
      ConfigManager.ensure_config_file fs = (false, fs)
      ∧ ConfigManager.ensure_config_file (ConfigManager.ensure_config_file fs).2 = (false, fs)
      ∧ (ConfigManager.ensure_config_file fs).2.configFile = none)
    ∧ (∀ c, fs.envFile = some c →
      ConfigManager.ensure_env_file fs = (true, fs)
      ∧ ConfigManager.ensure_env_file (ConfigManager.ensure_env_file fs).2 = (true, fs))
    ∧ (fs.envFile = none → fs.envExample = none →
      ConfigManager.ensure_env_file fs = (false, fs)
      ∧ ConfigManager.ensure_env_file (ConfigManager.ensure_env_file fs).2 = (false, fs)
      ∧ (ConfigManager.ensure_env_file fs).2.envFile = none) := by
  refine ⟨?_, ?_, ?_, ?_⟩
  · intro c h
    have e1 : ConfigManager.ensure_config_file fs = (true, fs) := by
      simp only [ConfigManager.ensure_config_file, h]
    exact ⟨e1, by rw [e1]; exact e1⟩
  · intro h1 h2
    have e1 : ConfigManager.ensure_config_file fs = (false, fs) := by
      simp only [ConfigManager.ensure_config_file, h1, h2]
    exact ⟨e1, by rw [e1]; exact e1, by rw [e1]; exact h1⟩
  · intro c h
    have e1 : ConfigManager.ensure_env_file fs = (true, fs) := by
      simp only [ConfigManager.ensure_env_file, h]
    exact ⟨e1, by rw [e1]; exact e1⟩
  · intro h1 h2
    have e1 : ConfigManager.ensure_env_file fs = (false, fs) := by
      simp only [ConfigManager.ensure_env_file, h1, h2]
    exact ⟨e1, by rw [e1]; exact e1, by rw [e1]; exact h1⟩

/-- C6 witness: the target-exists case on the healthy tree and the
both-missing case on the bare tree. -/
theorem ensure_config_file_idempotent_witness :
    (ConfigManager.ensure_config_file okFS = (true, okFS)
      ∧ ConfigManager.ensure_config_file (ConfigManager.ensure_config_file okFS).2 =
          (true, okFS))
    ∧ (ConfigManager.ensure_config_file emptyFS = (false, emptyFS)
      ∧ ConfigManager.ensure_config_file (ConfigManager.ensure_config_file emptyFS).2 =
          (false, emptyFS)
      ∧ (ConfigManager.ensure_config_file emptyFS).2.configFile = none) :=
  ⟨(ensure_config_file_idempotent okFS).1 "module.exports = ..." rfl,
   (ensure_config_file_idempotent emptyFS).2.1 rfl rfl⟩

/-- C7: when the PID file contains an integer pid of a dead process,
`get_running_pid` returns none and the PID file no longer exists afterward
(self-healing); when the recorded pid is alive, it returns the pid and the
filesystem is unchanged. -/
theorem get_running_pid_self_healing
    (alive : Int → Bool) (fs : FS) (content : String) (pid : Int)
    (hfile : fs.pidFile = some content)
    (hparse : pyInt (pyStrip content) = some pid) :
    (alive pid = false →
      ProcessManager.get_running_pid alive fs = (none, { fs with pidFile := none })
      ∧ (ProcessManager.get_running_pid alive fs).2.pidFile = none)
    ∧ (alive pid = true →
      ProcessManager.get_running_pid alive fs = (some pid, fs)) := by
  constructor
  · intro hdead
    have e : ProcessManager.get_running_pid alive fs = (none, { fs with pidFile := none }) := by
      simp only [ProcessManager.get_running_pid, hfile, hparse, hdead]
      simp
    exact ⟨e, by rw [e]⟩
  · intro halive
    simp only [ProcessManager.get_running_pid, hfile, hparse, halive]
    simp

/-- C7 witness: a PID file holding `123` with a dead process is cleaned and
yields none; with an alive process it yields 123 and is kept. -/
theorem get_running_pid_self_healing_witness :
    (ProcessManager.get_running_pid (fun _ => false) pidFS =
        (none, { pidFS with pidFile := none })
      ∧ (ProcessManager.get_running_pid (fun _ => false) pidFS).2.pidFile = none)
    ∧ ProcessManager.get_running_pid (fun _ => true) pidFS = (some 123, pidFS) :=
  ⟨(get_running_pid_self_healing (fun _ => false) pidFS "123" 123 rfl rfl).1 rfl,
   (get_running_pid_self_healing (fun _ => true) pidFS "123" 123 rfl rfl).2 rfl⟩

/-- C9: when the PID file exists but its content does not parse as an
integer, `get_running_pid` returns none and leaves the PID file in place —
the `ValueError` is caught and the deletion branch is never reached. -/
theorem get_running_pid_malformed_content_keeps_file
    (alive : Int → Bool) (fs : FS) (content : String)
    (hfile : fs.pidFile = some content)
    (hparse : pyInt (pyStrip content) = none) :
    ProcessManager.get_running_pid alive fs = (none, fs) := by
  simp only [ProcessManager.get_running_pid, hfile, hparse]

/-- C9 witness: a PID file holding `abc` yields none and stays on disk. -/
theorem get_running_pid_malformed_content_keeps_file_witness :
    ProcessManager.get_running_pid (fun _ => true) { okFS with pidFile := some "abc" } =
      (none, { okFS with pidFile := some "abc" }) :=
  get_running_pid_malformed_content_keeps_file (fun _ => true)
    { okFS with pidFile := some "abc" } "abc" rfl rfl

end ClaudeRelay
